import Mathlib

/-!
Verification of the `win-events` crate: a shallow embedding of its
filter-to-query compiler (`src/filter.rs`) and of the subscription
reader protocol (`src/reader.rs`), together with theorems checking the
design document against the code.

Machine integers are modelled as `Nat`/`Int`; native Windows calls are
modelled by oracle structures whose fields record the outcome of each
call, and functions additionally return the trace of native operations
they perform so that handle-release behaviour is observable.
-/

namespace filter

/-- Mirrors `filter::Level`. -/
inductive Level where
  | LogAlways
  | Critical
  | Error
  | Warning
  | Information
  | Verbose
  deriving DecidableEq

/-- Mirrors `Level::value`. -/
def Level.value : Level → String
  | Level.LogAlways => "Level=0"
  | Level.Critical => "Level=1"
  | Level.Error => "Level=2"
  | Level.Warning => "Level=3"
  | Level.Information => "Level=4"
  | Level.Verbose => "Level=5"

/-- Mirrors `filter::Config` (a `FilterSpec`): channel plus optional
level list, event-id selector string, max age in seconds, providers. -/
structure Config where
  channel : String
  level : Option (List Level) := none
  event_id : Option String := none
  ignore_older : Option Nat := none
  provider : Option (List String) := none
  deriving DecidableEq

/-- Model of Rust `str::split` on a one-character separator, over the
character list of the string: yields the (possibly empty) pieces
between occurrences of the separator. -/
def splitChar (sep : Char) : List Char → List (List Char)
  | [] => [[]]
  | c :: rest =>
    if c = sep then [] :: splitChar sep rest
    else
      match splitChar sep rest with
      | [] => [[c]]
      | h :: t => (c :: h) :: t

/-- Whether a token (as characters) starts with a dash, mirroring
`starts_with("-")`. -/
def startsWithDash : List Char → Bool
  | c :: _ => c = '-'
  | [] => false

/-- Model of Rust `str::parse::<u32>()` on the character list: an
optional leading `+`, then one or more ASCII digits, value at most
`u32::MAX`; anything else is a parse error (`none`). -/
def parseU32Chars (s : List Char) : Option Nat :=
  let t := match s with
           | '+' :: rest => rest
           | l => l
  if t.isEmpty then none
  else if t.all Char.isDigit then
    let n := t.foldl (fun a c => a * 10 + (c.toNat - 48)) 0
    if n < 4294967296 then some n else none
  else none

/-- Model of Rust `str::parse::<u32>()`. -/
def parseU32 (s : String) : Option Nat :=
  parseU32Chars s.data

/-- Mirrors the loop body of `build_event_id` for one comma token: push
`EventID=i` if the token parses as a `u32`, and push a range clause if
splitting on `-` gives two `u32`s with `start < end`. -/
def term_clauses (id : String) : List String :=
  let first : List String :=
    match parseU32 id with
    | some i => ["EventID=" ++ toString i]
    | none => []
  let ids := splitChar '-' id.data
  let second : List String :=
    match ids with
    | [a, b] =>
      match parseU32Chars a, parseU32Chars b with
      | some x, some y =>
        if x < y then
          ["(EventID &gt;= " ++ toString x ++ " and EventID &lt;= " ++ toString y ++ ")"]
        else []
      | _, _ => []
    | _ => []
  first ++ second

/-- Mirrors `build_event_id`. -/
def build_event_id (t : List String) : String :=
  "(" ++ String.intercalate " or " (t.flatMap term_clauses) ++ ")"

/-- Mirrors `build_include_event_id`. -/
def build_include_event_id (ids : String) : String :=
  build_event_id
    (((splitChar ',' ids.data).filter (fun i => ¬ startsWithDash i)).map String.mk)

/-- Mirrors `build_exclude_event_id`: keep the `-`-prefixed tokens and
strip all leading dashes (`trim_start_matches`). -/
def build_exclude_event_id (ids : String) : String :=
  build_event_id
    (((splitChar ',' ids.data).filter startsWithDash).map
      (fun i => String.mk (i.dropWhile (fun c => c = '-'))))

/-- Mirrors `build_provider`. -/
def build_provider (providers : List String) : String :=
  "Provider[" ++
    String.intercalate " or "
      (providers.map (fun p => "@Name=\x27" ++ p ++ "\x27")) ++ "]"

/-- Mirrors `build_ignore_old`. -/
def build_ignore_old (sec : Nat) : String :=
  "TimeCreated[timediff(@SystemTime) &lt;= " ++ toString (sec * 1000) ++ "]"

/-- The list `s` computed inside `build_level`: each selected level's
code, with `Level=0` pushed when `Level=4` is present. -/
def level_values (levels : List Level) : List String :=
  let s := levels.map Level.value
  if s.contains "Level=4" then s ++ ["Level=0"] else s

/-- Mirrors `build_level`. -/
def build_level (levels : List Level) : String :=
  "(" ++ String.intercalate " or " (level_values levels) ++ ")"

/-- Mirrors the body of the `for_each` loop in `build_query`: append the
select statement for one spec (and its suppress statement when an
event-id selector is present) to the accumulated statement list. -/
def push_spec (queries : List String) (f : Config) : List String :=
  let fcl : List String :=
    (match f.provider with
     | some providers => [build_provider providers]
     | none => []) ++
    (match f.level with
     | some levels => [build_level levels]
     | none => []) ++
    (match f.event_id with
     | some ids => [build_include_event_id ids]
     | none => []) ++
    (match f.ignore_older with
     | some sec => [build_ignore_old sec]
     | none => [])
  let filter_str : String :=
    if fcl.length > 0 then "[System[" ++ String.intercalate " and " fcl ++ "]]" else ""
  let queries := queries ++ ["<Select Path=\"" ++ f.channel ++ "\">*" ++ filter_str ++ "</Select>"]
  match f.event_id with
  | some ids =>
      queries ++
        ["<Suppress Path=\"" ++ f.channel ++ "\">*[System[" ++
          build_exclude_event_id ids ++ "]]</Suppress>"]
  | none => queries

/-- Mirrors `build_query`. -/
def build_query (filters : List Config) : String :=
  let queries : List String := filters.foldl push_spec []
  "<QueryList><Query Id=\"0\">" ++ String.join queries ++ "</Query></QueryList>"

/-- Specification-side view: the ordered clause list of one spec
(provider, level, event-id, max-age). -/
def clausesOf (f : Config) : List String :=
  (match f.provider with
   | some providers => [build_provider providers]
   | none => []) ++
  (match f.level with
   | some levels => [build_level levels]
   | none => []) ++
  (match f.event_id with
   | some ids => [build_include_event_id ids]
   | none => []) ++
  (match f.ignore_older with
   | some sec => [build_ignore_old sec]
   | none => [])

/-- Specification-side view: the channel-scoped select statement of one
spec; unconditional when no clause exists, otherwise a single
parenthesized System-scoped condition joining the clauses with and. -/
def selectStmt (f : Config) : String :=
  "<Select Path=\"" ++ f.channel ++ "\">*" ++
    (if clausesOf f = [] then ""
     else "[System[" ++ String.intercalate " and " (clausesOf f) ++ "]]") ++
  "</Select>"

/-- Specification-side view: the channel-scoped suppress statement built
over the stripped exclusion terms of the event-id selector. -/
def suppressStmt (channel : String) (ids : String) : String :=
  "<Suppress Path=\"" ++ channel ++ "\">*[System[" ++
    build_exclude_event_id ids ++ "]]</Suppress>"

/-- Specification-side view: all statements one spec contributes to the
compiled query, in order. -/
def statementsOf (f : Config) : List String :=
  [selectStmt f] ++
    (match f.event_id with
     | some ids => [suppressStmt f.channel ids]
     | none => [])

/-- A comma-separated entry of the selector starting with a dash. -/
def hasExclusionTerm (ids : String) : Bool :=
  (splitChar ',' ids.data).any startsWithDash

/-- Specification-side predicate: the token parses as a single
non-negative integer id. -/
def isSingleId (t : String) : Bool :=
  (parseU32 t).isSome

/-- Specification-side predicate: the token is a two-part range
`start-end` with both parts non-negative integers and `start < end`. -/
def isValidRange (t : String) : Bool :=
  match splitChar '-' t.data with
  | [a, b] =>
    match parseU32Chars a, parseU32Chars b with
    | some x, some y => decide (x < y)
    | _, _ => false
  | _ => false

/-- The inclusion tokens of a selector (entries not starting with a
dash). -/
def includeTokens (ids : String) : List String :=
  ((splitChar ',' ids.data).filter (fun i => ¬ startsWithDash i)).map String.mk

/-- The stripped exclusion tokens of a selector. -/
def excludeTokens (ids : String) : List String :=
  ((splitChar ',' ids.data).filter startsWithDash).map
    (fun i => String.mk (i.dropWhile (fun c => c = '-')))

end filter

/-- Decidable equality for `Except` results, used to evaluate concrete
runs of the embedded operations. -/
instance {ε α : Type} [DecidableEq ε] [DecidableEq α] : DecidableEq (Except ε α) := by
  intro x y
  cases x <;> cases y
  case error.error a b =>
    exact if h : a = b then isTrue (by rw [h]) else isFalse (by simp [h])
  case ok.ok a b =>
    exact if h : a = b then isTrue (by rw [h]) else isFalse (by simp [h])
  case error.ok a b => exact isFalse (by simp)
  case ok.error a b => exact isFalse (by simp)

/-- Mirrors `error::ErrorKind`. -/
inductive ErrorKind where
  | Event
  | Subscription
  | NoMoreLogs
  deriving DecidableEq

/-- Mirrors `error::Error`. -/
structure Error where
  kind : ErrorKind
  message : String
  deriving DecidableEq

/-- Model of the display text of `std::io::Error` for a raw OS error
code (`raw_os_error()`); the exact wording is platform owned, it is only
required to embed the code. -/
def ioErrorText : Option Nat → String
  | some c => "os error " ++ toString c
  | none => "no os error"

/-- Mirrors `Error::event`. -/
def Error.event (message : String) (err : String) : Error :=
  { kind := ErrorKind.Event, message := message ++ " - (" ++ err ++ ")" }

/-- Mirrors `Error::subscription`. -/
def Error.subscription (message : String) (err : String) : Error :=
  { kind := ErrorKind.Subscription, message := message ++ " - (" ++ err ++ ")" }

namespace reader

/-- Mirrors `reader::Output`. -/
inductive Output where
  | Xml
  | Raw
  | Parsed
  | Json
  deriving DecidableEq

/-- A native wait-signal handle (`HANDLE`), observable only through its
null and invalid checks. -/
structure HANDLE where
  isNull : Bool
  isInvalid : Bool
  deriving DecidableEq

/-- Mirrors `reader::Reader` (native handles as plain integers). -/
structure Reader where
  subscription_handle : Int
  bookmark_handle : Int
  signal : Option HANDLE
  output : Output
  deriving DecidableEq

/-- Mirrors `reader::Config`. -/
structure Config where
  read_oldest : Bool
  query : String
  bookmark : Option String
  output : Output

def EVT_SUBSCRIBE_TO_FUTURE_EVENTS : Nat := 1
def EVT_SUBSCRIBE_START_AT_OLDEST_RECORD : Nat := 2
def EVT_SUBSCRIBE_START_AFTER_BOOKMARK : Nat := 3
def EVT_FORMAT_MESSAGE_XML : Nat := 9
def EVT_RENDER_FLAG_EVENT_XML : Nat := 1
def EVT_RENDER_FLAG_BOOKMARK : Nat := 2

/-- A native operation performed by the reader, recorded in traces so
that handle acquisition and release are observable. -/
inductive NativeOp where
  | evtCreateBookmark
  | createEventW
  | evtSubscribe
  | closeHandle
  | evtClose (handle : Int)
  deriving DecidableEq

/-- Outcome of one `EvtNext` poll: an event handle, or a failure whose
`raw_os_error` code is recorded. -/
inductive PollOutcome where
  | ok (event : Int)
  | fail (code : Option Nat)
  deriving DecidableEq

/-- Mirrors `next_event`: success wraps the handle; on failure the codes
1460 (timeout), 259 (no more items), 4317 (invalid operation) and an
absent code are benign (`Ok(None)`), anything else is fatal. -/
def next_event (poll : PollOutcome) : Except Error (Option Int) :=
  match poll with
  | PollOutcome.ok e => Except.ok (some e)
  | PollOutcome.fail none => Except.ok none
  | PollOutcome.fail (some e) =>
    if e = 1460 ∨ e = 259 ∨ e = 4317 then Except.ok none
    else
      Except.error
        (Error.subscription "error getting next windows logs event" (ioErrorText (some e)))

/-- Specification-side predicate for the benign poll codes of §4.3. -/
def benignCode : Option Nat → Bool
  | none => true
  | some e => e == 1460 || e == 259 || e == 4317

def utf16IsHigh (u : Nat) : Bool := 0xD800 ≤ u && u ≤ 0xDBFF

def utf16IsLow (u : Nat) : Bool := 0xDC00 ≤ u && u ≤ 0xDFFF

/-- One UTF-16 code unit outside a surrogate pair: a lone surrogate
becomes the replacement character, as in `String::from_utf16_lossy`. -/
def utf16DecodeOne (u : Nat) : Char :=
  if utf16IsHigh u || utf16IsLow u then Char.ofNat 0xFFFD else Char.ofNat u

/-- Lossy UTF-16 decoding, mirroring `String::from_utf16_lossy`. -/
def utf16Decode : List Nat → List Char
  | [] => []
  | [u] => [utf16DecodeOne u]
  | u :: v :: rest =>
    if utf16IsHigh u && utf16IsLow v then
      Char.ofNat (0x10000 + (u - 0xD800) * 0x400 + (v - 0xDC00)) :: utf16Decode rest
    else
      utf16DecodeOne u :: utf16Decode (v :: rest)

/-- Mirrors `trim_matches(char::from(0))`: drop leading and trailing
null characters. -/
def trimNullChars (cs : List Char) : List Char :=
  (((cs.dropWhile (fun c => c = Char.ofNat 0)).reverse).dropWhile
    (fun c => c = Char.ofNat 0)).reverse

/-- `String::from_utf16_lossy(..).trim_matches(char::from(0))`. -/
def fromUtf16LossyTrimmed (buf : List Nat) : String :=
  String.mk (trimNullChars (utf16Decode buf))

/-- The `vec![0; buffer_size]` buffer after the fill call: the code
units the native call wrote (masked to `u16`, truncated to the buffer
size) followed by the untouched zero padding. -/
def filledBuffer (size : Nat) (data : List Nat) : List Nat :=
  let written := (data.take size).map (fun u => u % 65536)
  written ++ List.replicate (size - written.length) 0

/-- Oracle for one probe-then-fill native render/format call pair:
`probeCode` is `raw_os_error()` after the zero-size call, `probeUsed`
the size it reported, `fillOk` whether the real call succeeded,
`fillErr` its error code on failure and `fillData` the code units it
wrote on success. -/
structure RenderWorld where
  probeCode : Option Nat
  probeUsed : Nat
  fillOk : Bool
  fillErr : Option Nat
  fillData : List Nat
  deriving DecidableEq

/-- The second half of `render_event`/`format_message`: allocate the
reported size and perform the fill call. -/
def render_fill (w : RenderWorld) : Except Error String :=
  let buffer_size := w.probeUsed
  if w.fillOk then
    Except.ok (fromUtf16LossyTrimmed (filledBuffer buffer_size w.fillData))
  else
    Except.error (Error.event "unable to render event" (ioErrorText w.fillErr))

/-- Mirrors `render_event`: probe with a zero-size buffer, fail on any
reported code other than 122 (insufficient buffer), then fill. The
`flag` selects the native rendering mode and is otherwise inert in the
model. -/
def render_event (w : RenderWorld) (flag : Nat) : Except Error String :=
  match w.probeCode with
  | some err =>
    if err ≠ 122 then
      Except.error (Error.event "unable to render event" (ioErrorText (some err)))
    else render_fill w
  | none => render_fill w

/-- Mirrors `format_message`: identical probe-then-fill shape; the
publisher only selects the native metadata handle, whose effect on the
produced text is already part of the oracle fields of `w`. -/
def format_message (publisher : Option String) (w : RenderWorld) (flag : Nat) :
    Except Error String :=
  match w.probeCode with
  | some err =>
    if err ≠ 122 then
      Except.error (Error.event "unable to render event" (ioErrorText (some err)))
    else render_fill w
  | none => render_fill w

/-- Drop everything up to and including the first occurrence of
`needle`; `none` when `needle` does not occur. -/
def dropThrough (needle : List Char) : List Char → Option (List Char)
  | [] => if needle = [] then some [] else none
  | c :: rest =>
    if needle.isPrefixOf (c :: rest) then some ((c :: rest).drop needle.length)
    else dropThrough needle rest

/-- Abstraction of `parse_provider_name`: scan the event XML for the
Provider element and return its Name attribute. The quick-xml tokenizer
is modelled only to the extent of locating the attribute; no claim
constrains this value. -/
def parse_provider_name (xml : String) : Option String :=
  match dropThrough ("<Provider ").toList xml.toList with
  | none => none
  | some rest =>
    match dropThrough ("Name=" ++ String.mk [Char.ofNat 34]).toList rest with
    | none => none
    | some rest2 => some (String.mk (rest2.takeWhile (fun c => c ≠ Char.ofNat 34)))

/-- Oracle for processing one retrieved event: the `EvtUpdateBookmark`
outcome, then the two probe-then-fill call pairs. -/
structure EventWorld where
  updOk : Bool
  updErr : Option Nat
  render : RenderWorld
  fmt : RenderWorld
  deriving DecidableEq

/-- Mirrors `process_event`: advance the bookmark first (fatal
`EventError` on failure), then render for the provider name (non-fatal)
and format the message. -/
def process_event (w : EventWorld) : Except Error String :=
  if ¬ w.updOk then
    Except.error (Error.event "unable to update bookmark" (ioErrorText w.updErr))
  else
    let provider : Option String :=
      match render_event w.render EVT_RENDER_FLAG_EVENT_XML with
      | Except.ok xml => parse_provider_name xml
      | Except.error _ => none
    format_message provider w.fmt EVT_FORMAT_MESSAGE_XML

/-- The external conversions of `event.rs` (out of scope per §1),
abstracted: XML to `RawEvent`, `RawEvent` to `Event`, and serde JSON
serialization. -/
structure Conv (R E : Type) where
  tryIntoRaw : String → Except Error R
  rawIntoEvent : R → E
  toJson : E → Except String String

/-- Mirrors `event::WinLogEvent`, with the external record types as
parameters. -/
inductive WinLogEvent (R E : Type) where
  | Xml (s : String)
  | Raw (r : R)
  | Parsed (e : E)
  | Json (s : String)
  deriving DecidableEq

/-- The `match self.output` tail of `Reader::next`. -/
def convertOutput {R E : Type} (conv : Conv R E) (o : Output) (xml : String) :
    Except Error (WinLogEvent R E) :=
  match o with
  | Output.Xml => Except.ok (WinLogEvent.Xml xml)
  | Output.Raw =>
    match conv.tryIntoRaw xml with
    | Except.ok r => Except.ok (WinLogEvent.Raw r)
    | Except.error e => Except.error e
  | Output.Parsed =>
    match conv.tryIntoRaw xml with
    | Except.ok r => Except.ok (WinLogEvent.Parsed (conv.rawIntoEvent r))
    | Except.error e => Except.error e
  | Output.Json =>
    match conv.tryIntoRaw xml with
    | Except.error e => Except.error e
    | Except.ok r =>
      match conv.toJson (conv.rawIntoEvent r) with
      | Except.ok json => Except.ok (WinLogEvent.Json json)
      | Except.error err => Except.error { kind := ErrorKind.Event, message := err }

/-- Oracle for one `Reader::next` invocation. -/
structure NextWorld where
  poll : PollOutcome
  ev : EventWorld
  deriving DecidableEq

/-- Mirrors `Reader::next`. The second component records whether
`EvtClose` was executed on the retrieved event handle before returning;
in the source that close sits after the `process_event(..)?` early
return. -/
def Reader.next {R E : Type} (conv : Conv R E) (r : Reader) (w : NextWorld) :
    Except Error (WinLogEvent R E) × Bool :=
  match next_event w.poll with
  | Except.error e => (Except.error e, false)
  | Except.ok none =>
    (Except.error { kind := ErrorKind.NoMoreLogs, message := "" }, false)
  | Except.ok (some _event) =>
    match process_event w.ev with
    | Except.error e => (Except.error e, false)
    | Except.ok xml => (convertOutput conv r.output xml, true)

/-- Oracle for one `Reader::init` invocation: the handle returned by
`EvtCreateBookmark` on the stored bookmark, the created signal, the
`EvtSubscribe` result and the default-bookmark creation result, with
the error codes read on each failure path. -/
structure InitWorld where
  bmFromXml : Int
  signal : HANDLE
  signalErr : Option Nat
  subscribeResult : Int
  subscribeErr : Option Nat
  defaultBm : Int
  defaultBmErr : Option Nat
  deriving DecidableEq

/-- Mirrors `Reader::init`, additionally returning the trace of native
operations performed (the source performs no close operation on any of
its paths). -/
def init (config : Config) (w : InitWorld) : Except Error Reader × List NativeOp :=
  let flag := if config.read_oldest then EVT_SUBSCRIBE_START_AT_OLDEST_RECORD
              else EVT_SUBSCRIBE_TO_FUTURE_EVENTS
  let bm : Int × List NativeOp :=
    match config.bookmark with
    | some _xml => (w.bmFromXml, [NativeOp.evtCreateBookmark])
    | none => (0, [])
  let bookmark_handle := bm.1
  let _flag := if bookmark_handle ≠ 0 then EVT_SUBSCRIBE_START_AFTER_BOOKMARK else flag
  let trace := bm.2 ++ [NativeOp.createEventW]
  if w.signal.isNull ∨ w.signal.isInvalid then
    (Except.error (Error.subscription "unable to create signal" (ioErrorText w.signalErr)),
     trace)
  else
    let trace := trace ++ [NativeOp.evtSubscribe]
    if w.subscribeResult = 0 then
      (Except.error
        (Error.subscription "unable to create events subscription"
          (ioErrorText w.subscribeErr)),
       trace)
    else
      if bookmark_handle = 0 then
        let trace := trace ++ [NativeOp.evtCreateBookmark]
        if w.defaultBm = 0 then
          (Except.error
            (Error.subscription "unable to create default bookmark handle"
              (ioErrorText w.defaultBmErr)),
           trace)
        else
          (Except.ok
            { subscription_handle := w.subscribeResult,
              bookmark_handle := w.defaultBm,
              signal := some w.signal,
              output := config.output },
           trace)
      else
        (Except.ok
          { subscription_handle := w.subscribeResult,
            bookmark_handle := bookmark_handle,
            signal := some w.signal,
            output := config.output },
         trace)

/-- Mirrors `Drop for Reader`: the trace of close operations teardown
performs. It is a total function into a list of operations — teardown
itself cannot fail. -/
def Reader.drop (r : Reader) : List NativeOp :=
  let trace : List NativeOp :=
    match r.signal with
    | some s => if ¬ s.isNull ∧ ¬ s.isInvalid then [NativeOp.closeHandle] else []
    | none => []
  let trace := if r.subscription_handle ≠ 0 then trace ++ [NativeOp.evtClose r.subscription_handle] else trace
  if r.bookmark_handle ≠ 0 then trace ++ [NativeOp.evtClose r.bookmark_handle] else trace

/-- Mirrors `Reader::get_bookmark`. -/
def Reader.get_bookmark (_r : Reader) (w : RenderWorld) : Except Error String :=
  render_event w EVT_RENDER_FLAG_BOOKMARK

end reader

/-- A spec whose event-id selector is present but has no exclusion
term. -/
def specApp5 : filter.Config := { channel := "App", event_id := some "5" }

/-- A spec with every optional field set. -/
def specFull : filter.Config :=
  { channel := "App", level := some [filter.Level.Error], event_id := some "5",
    ignore_older := some 2, provider := some ["P"] }

/-- Trivial instantiation of the external conversions, for concrete
evaluations. -/
def convUnit : reader.Conv Unit Unit :=
  { tryIntoRaw := fun _ => Except.ok (),
    rawIntoEvent := fun _ => (),
    toJson := fun _ => Except.ok "null" }

/-- A reader state with both handles live and no stored signal. -/
def reader0 : reader.Reader :=
  { subscription_handle := 1, bookmark_handle := 2, signal := none,
    output := reader.Output.Xml }

/-- A probe-then-fill oracle where the probe reports insufficient buffer
with size 2 and the fill writes the code units of the text Hi. -/
def wRenderOk : reader.RenderWorld :=
  { probeCode := some 122, probeUsed := 2, fillOk := true, fillErr := none,
    fillData := [72, 105] }

/-- An event-processing oracle where every native call succeeds. -/
def wEvOk : reader.EventWorld :=
  { updOk := true, updErr := none, render := wRenderOk, fmt := wRenderOk }

/-- An event-processing oracle where `EvtUpdateBookmark` fails with OS
code 5. -/
def wEvUpdFail : reader.EventWorld :=
  { updOk := false, updErr := some 5, render := wRenderOk, fmt := wRenderOk }

/-- A `next` oracle: an event is retrieved, then the bookmark advance
fails. -/
def wNextLeak : reader.NextWorld :=
  { poll := reader.PollOutcome.ok 7, ev := wEvUpdFail }

/-- A `next` oracle where everything succeeds. -/
def wNextOk : reader.NextWorld :=
  { poll := reader.PollOutcome.ok 7, ev := wEvOk }

/-- A `next` oracle where the poll fails with the non-benign OS code
5. -/
def wNextFatal : reader.NextWorld :=
  { poll := reader.PollOutcome.fail (some 5), ev := wEvOk }

/-- A reader configuration with no stored bookmark. -/
def cfgInit : reader.Config :=
  { read_oldest := false, query := "q", bookmark := none,
    output := reader.Output.Xml }

/-- An init oracle where the signal is created successfully and
`EvtSubscribe` fails with OS code 5. -/
def wInitSubFail : reader.InitWorld :=
  { bmFromXml := 0, signal := { isNull := false, isInvalid := false },
    signalErr := none, subscribeResult := 0, subscribeErr := some 5,
    defaultBm := 1, defaultBmErr := none }

/-- Helper: the loop body of `build_query` appends exactly the
statements of the processed spec. -/
theorem push_spec_eq (qs : List String) (f : filter.Config) :
    filter.push_spec qs f = qs ++ filter.statementsOf f := by
  have hif : ∀ (l : List String) (x : String),
      (if l.length > 0 then x else "") = (if l = [] then "" else x) := by
    intro l x; cases l <;> simp
  rcases f with ⟨ch, lv, eid, io, pv⟩
  simp only [filter.push_spec, filter.statementsOf, filter.selectStmt,
    filter.suppressStmt, filter.clausesOf, hif]
  cases eid <;> simp

/-- Helper: folding the loop body over the spec list concatenates the
per-spec statements in spec order. -/
theorem foldl_push_spec (fs : List filter.Config) (acc : List String) :
    fs.foldl filter.push_spec acc = acc ++ fs.flatMap filter.statementsOf := by
  induction fs generalizing acc with
  | nil => simp
  | cons f t ih => simp [push_spec_eq, ih]

/-- Helper: the compiled query is the fixed envelope around the
concatenated per-spec statements. -/
theorem build_query_stmts (fs : List filter.Config) :
    filter.build_query fs =
      "<QueryList><Query Id=\"0\">" ++
        String.join (fs.flatMap filter.statementsOf) ++ "</Query></QueryList>" := by
  unfold filter.build_query
  rw [foldl_push_spec]
  simp

/-- Helper: only `Information` has the code string of level four. -/
theorem level_value_eq_four (l : filter.Level) :
    (filter.Level.value l = "Level=4") ↔ l = filter.Level.Information := by
  cases l <;> decide

/-- Helper: only `LogAlways` has the code string of level zero. -/
theorem level_value_eq_zero (l : filter.Level) :
    (filter.Level.value l = "Level=0") ↔ l = filter.Level.LogAlways := by
  cases l <;> decide

/-- Helper: the `contains` probe inside `build_level` detects exactly a
selected `Information` level. -/
theorem map_value_contains_four (ls : List filter.Level) :
    ((ls.map filter.Level.value).contains "Level=4" = true) ↔
      filter.Level.Information ∈ ls := by
  rw [show (ls.map filter.Level.value).contains "Level=4" =
        List.elem "Level=4" (ls.map filter.Level.value) from rfl, List.elem_iff]
  simp [List.mem_map, level_value_eq_four]

/-- Helper: a token list in which every token contributes nothing
flat-maps to the empty clause list. -/
theorem flatMap_term_clauses_nil (l : List String)
    (h : ∀ t ∈ l, filter.term_clauses t = []) :
    l.flatMap filter.term_clauses = [] := by
  induction l with
  | nil => simp
  | cons a t ih =>
    simp only [List.flatMap_cons]
    rw [h a (by simp), ih (fun x hx => h x (by simp [hx]))]
    rfl

/-- C1 (counterexample): for the spec with channel App and event-id
selector 5 — a selector that is present but has no exclusion term — the
compiled query nevertheless contains a channel-scoped Suppress
statement (with the empty clause), refuting the only-if direction of
the claim. -/
theorem suppress_without_exclusion_counterexample :
    specApp5.event_id = some "5"
    ∧ filter.hasExclusionTerm "5" = false
    ∧ filter.statementsOf specApp5 =
        ["<Select Path=\"App\">*[System[(EventID=5)]]</Select>",
         "<Suppress Path=\"App\">*[System[()]]</Suppress>"]
    ∧ filter.build_query [specApp5] =
        "<QueryList><Query Id=\"0\"><Select Path=\"App\">*[System[(EventID=5)]]</Select><Suppress Path=\"App\">*[System[()]]</Suppress></Query></QueryList>"
    ∧ ¬(((filter.statementsOf specApp5).length = 2) ↔
          filter.hasExclusionTerm "5" = true) := by
  refine ⟨rfl, by decide, by decide, by decide, by decide⟩

/-- C1 (amended): a channel-scoped Suppress statement for a spec's
channel appears in the compiled query if and only if the spec's
event-id selector is present (regardless of whether it contains any
exclusion term); when emitted, its clause is built over the stripped
exclusion terms only. -/
theorem suppress_iff_selector_present :
    ∀ f : filter.Config,
      ((filter.statementsOf f).length = 2 ↔ f.event_id.isSome = true)
      ∧ (∀ ids, f.event_id = some ids →
          filter.statementsOf f = [filter.selectStmt f, filter.suppressStmt f.channel ids]
          ∧ filter.suppressStmt f.channel ids =
              "<Suppress Path=\"" ++ f.channel ++ "\">*[System[" ++
                filter.build_event_id (filter.excludeTokens ids) ++ "]]</Suppress>")
      ∧ (f.event_id = none → filter.statementsOf f = [filter.selectStmt f]) := by
  intro f
  refine ⟨?_, ?_, ?_⟩
  · cases h : f.event_id <;> simp [filter.statementsOf, h]
  · intro ids h
    exact ⟨by simp [filter.statementsOf, h], rfl⟩
  · intro h
    simp [filter.statementsOf, h]

/-- C1 (witness): instantiation of the amended statement on the
concrete spec with selector 5. -/
theorem suppress_iff_selector_present_witness :
    filter.statementsOf specApp5 =
      [filter.selectStmt specApp5, filter.suppressStmt "App" "5"] :=
  (((suppress_iff_selector_present specApp5).2).1 "5" rfl).1

/-- C4: a comma token contributes a clause member exactly when it
parses as a single non-negative integer or as a strict two-part range;
on the selector 1,16384,-3433,100-200,-300-400 the inclusion clause
holds ids 1 and 16384 and range 100 to 200 and the exclusion clause
holds id 3433 and range 300 to 400; inverted and degenerate ranges are
dropped. -/
theorem event_id_token_validity :
    (∀ t : String,
       (filter.term_clauses t = [] ↔
         (filter.isSingleId t = false ∧ filter.isValidRange t = false)))
    ∧ filter.build_include_event_id "1,16384,-3433,100-200,-300-400" =
        "(EventID=1 or EventID=16384 or (EventID &gt;= 100 and EventID &lt;= 200))"
    ∧ filter.build_exclude_event_id "1,16384,-3433,100-200,-300-400" =
        "(EventID=3433 or (EventID &gt;= 300 and EventID &lt;= 400))"
    ∧ filter.term_clauses "200-100" = []
    ∧ filter.term_clauses "5-5" = [] := by
  refine ⟨?_, by decide, by decide, by decide, by decide⟩
  intro t
  simp only [filter.term_clauses, filter.isSingleId, filter.isValidRange]
  cases hp : filter.parseU32 t with
  | some i => simp [hp]
  | none =>
    simp only [hp, Option.isSome_none, List.nil_append]
    split
    · split
      · split <;> simp_all
      · simp_all
    · simp_all

/-- C5: the compiled level list is the selected level codes plus
LogAlways's code exactly when Information is selected, and LogAlways's
code is present in the compiled list exactly when LogAlways was
selected or Information was selected. -/
theorem level_widening :
    ∀ ls : List filter.Level,
      filter.level_values ls =
        ls.map filter.Level.value ++
          (if filter.Level.Information ∈ ls then ["Level=0"] else [])
      ∧ (("Level=0" ∈ filter.level_values ls) ↔
          (filter.Level.LogAlways ∈ ls ∨ filter.Level.Information ∈ ls)) := by
  intro ls
  have h4 := map_value_contains_four ls
  have heq : filter.level_values ls =
      ls.map filter.Level.value ++
        (if filter.Level.Information ∈ ls then ["Level=0"] else []) := by
    by_cases h : filter.Level.Information ∈ ls
    · simp only [filter.level_values]
      rw [if_pos (h4.mpr h), if_pos h]
    · simp only [filter.level_values]
      rw [if_neg (fun hc => h (h4.mp hc)), if_neg h]
      simp
  refine ⟨heq, ?_⟩
  rw [heq]
  by_cases h : filter.Level.Information ∈ ls <;>
    simp [h, List.mem_append, List.mem_map, level_value_eq_zero]

/-- C7: the compiled query is the envelope around the concatenation of
independent per-spec statements in spec order; each spec contributes
its own channel-scoped select (plus suppress when a selector exists); a
fully populated spec joins provider, level, event-id and max-age, in
that order, with and inside one System-scoped condition; a bare spec
compiles to an unconditional select and no suppress; two bare specs
yield two independent selects. -/
theorem compile_select_structure :
    (∀ fs : List filter.Config,
       filter.build_query fs =
         "<QueryList><Query Id=\"0\">" ++
           String.join (fs.flatMap filter.statementsOf) ++ "</Query></QueryList>")
    ∧ (∀ f : filter.Config,
        filter.statementsOf f =
          filter.selectStmt f ::
            (match f.event_id with
             | some ids => [filter.suppressStmt f.channel ids]
             | none => []))
    ∧ filter.selectStmt specFull =
        "<Select Path=\"App\">*[System[Provider[@Name=\x27P\x27] and (Level=2) and (EventID=5) and TimeCreated[timediff(@SystemTime) &lt;= 2000]]]</Select>"
    ∧ filter.statementsOf { channel := "Application" } =
        ["<Select Path=\"Application\">*</Select>"]
    ∧ filter.build_query [{ channel := "Application" }, { channel := "Security" }] =
        "<QueryList><Query Id=\"0\"><Select Path=\"Application\">*</Select><Select Path=\"Security\">*</Select></Query></QueryList>" := by
  refine ⟨build_query_stmts, fun f => rfl, by decide, by decide, by decide⟩

/-- C10: when every inclusion token of a present selector is invalid
the event-id clause still appears inside the Select filter as the empty
parenthesized string, and symmetrically the Suppress clause is the
empty parenthesized string when the selector has no valid exclusion
token. -/
theorem empty_clause_emitted :
    ∀ ids : String,
      (((filter.includeTokens ids).all fun t => filter.term_clauses t == []) = true →
         filter.build_include_event_id ids = "()")
      ∧ (((filter.excludeTokens ids).all fun t => filter.term_clauses t == []) = true →
         filter.build_exclude_event_id ids = "()")
      ∧ (∀ ch lv io pv,
          filter.build_include_event_id ids ∈
            filter.clausesOf
              { channel := ch, level := lv, event_id := some ids,
                ignore_older := io, provider := pv }
          ∧ filter.statementsOf
              { channel := ch, level := lv, event_id := some ids,
                ignore_older := io, provider := pv } =
              [filter.selectStmt
                { channel := ch, level := lv, event_id := some ids,
                  ignore_older := io, provider := pv },
               filter.suppressStmt ch ids]) := by
  intro ids
  refine ⟨?_, ?_, ?_⟩
  · intro h
    simp only [List.all_eq_true, beq_iff_eq] at h
    show filter.build_event_id (filter.includeTokens ids) = "()"
    unfold filter.build_event_id
    rw [flatMap_term_clauses_nil _ h]
    rfl
  · intro h
    simp only [List.all_eq_true, beq_iff_eq] at h
    show filter.build_event_id (filter.excludeTokens ids) = "()"
    unfold filter.build_event_id
    rw [flatMap_term_clauses_nil _ h]
    rfl
  · intro ch lv io pv
    exact ⟨by simp [filter.clausesOf], by simp [filter.statementsOf]⟩

/-- C10 (witness): the selector -3433 has no inclusion token and the
selector 5 has no exclusion token; both produce the empty parenthesized
clause. -/
theorem empty_clause_emitted_witness :
    filter.build_include_event_id "-3433" = "()"
    ∧ filter.build_exclude_event_id "5" = "()" :=
  ⟨(empty_clause_emitted "-3433").1 (by decide),
   ((empty_clause_emitted "5").2).1 (by decide)⟩

/-- C2: when the poll yields no event, `next` returns the `NoMoreLogs`
result exactly when the OS error code is absent or one of 1460, 259,
4317, and for every other code it returns a Subscription error wrapping
that code. -/
theorem next_noMoreLogs_iff_benign {R E : Type} (conv : reader.Conv R E)
    (r : reader.Reader) (w : reader.NextWorld) (code : Option Nat)
    (h : w.poll = reader.PollOutcome.fail code) :
    (((reader.Reader.next conv r w).1 =
        Except.error { kind := ErrorKind.NoMoreLogs, message := "" }) ↔
      reader.benignCode code = true)
    ∧ (reader.benignCode code = false →
        (reader.Reader.next conv r w).1 =
          Except.error
            (Error.subscription "error getting next windows logs event"
              (ioErrorText code))) := by
  cases code with
  | none =>
    have hnext : (reader.Reader.next conv r w).1 =
        Except.error { kind := ErrorKind.NoMoreLogs, message := "" } := by
      simp [reader.Reader.next, reader.next_event, h]
    exact ⟨by simp [hnext, reader.benignCode], fun hf => by cases hf⟩
  | some e =>
    by_cases hb : e = 1460 ∨ e = 259 ∨ e = 4317
    · have hnext : (reader.Reader.next conv r w).1 =
          Except.error { kind := ErrorKind.NoMoreLogs, message := "" } := by
        simp [reader.Reader.next, reader.next_event, h, hb]
      have hbc : reader.benignCode (some e) = true := by
        rcases hb with h1 | h1 | h1 <;> simp [reader.benignCode, h1]
      exact ⟨by simp [hnext, hbc], fun hf => by rw [hbc] at hf; cases hf⟩
    · have hnext : (reader.Reader.next conv r w).1 =
          Except.error
            (Error.subscription "error getting next windows logs event"
              (ioErrorText (some e))) := by
        simp [reader.Reader.next, reader.next_event, h, hb]
      have hbc : reader.benignCode (some e) = false := by
        rcases not_or.mp hb with ⟨h1, h23⟩
        rcases not_or.mp h23 with ⟨h2, h3⟩
        simp [reader.benignCode, h1, h2, h3]
      refine ⟨?_, fun _ => hnext⟩
      rw [hnext, hbc]
      simp [Error.subscription]

/-- C2 (witness): a poll failure with the non-benign OS code 5 makes
`next` return the Subscription error wrapping code 5. -/
theorem next_noMoreLogs_iff_benign_witness :
    (reader.Reader.next convUnit reader0 wNextFatal).1 =
      Except.error
        (Error.subscription "error getting next windows logs event"
          (ioErrorText (some 5))) :=
  (next_noMoreLogs_iff_benign convUnit reader0 wNextFatal (some 5) rfl).2 rfl

/-- C3 (counterexample): with an event retrieved and the bookmark
advance failing, `next` returns the Event error but the native event
handle is not closed — the close flag is false — refuting the claim
that the handle is closed on every path. -/
theorem event_handle_leak_counterexample :
    wNextLeak.poll = reader.PollOutcome.ok 7
    ∧ (reader.Reader.next convUnit reader0 wNextLeak).2 = false
    ∧ (reader.Reader.next convUnit reader0 wNextLeak).1 =
        Except.error (Error.event "unable to update bookmark" (ioErrorText (some 5))) := by
  refine ⟨rfl, by decide, by decide⟩

/-- C3 (amended): when an event handle was retrieved, the native event
handle is closed before `next` returns exactly when event processing
(bookmark advance, render, format) succeeded; on a processing failure
the error is returned without the event and without closing the event
handle. -/
theorem event_close_iff_process_ok {R E : Type} (conv : reader.Conv R E)
    (r : reader.Reader) (w : reader.NextWorld) (e : Int)
    (h : w.poll = reader.PollOutcome.ok e) :
    ((reader.Reader.next conv r w).2 = true ↔
      (reader.process_event w.ev).isOk = true)
    ∧ (∀ err, reader.process_event w.ev = Except.error err →
        (reader.Reader.next conv r w).1 = Except.error err
        ∧ (reader.Reader.next conv r w).2 = false)
    ∧ (∀ xml, reader.process_event w.ev = Except.ok xml →
        (reader.Reader.next conv r w).2 = true
        ∧ (reader.Reader.next conv r w).1 = reader.convertOutput conv r.output xml) := by
  cases hp : reader.process_event w.ev with
  | ok xml =>
    refine ⟨?_, ?_, ?_⟩
    · simp [reader.Reader.next, reader.next_event, h, hp, Except.isOk, Except.toBool]
    · intro err herr; exact absurd herr (by simp)
    · intro x hx
      injection hx with hx2
      subst hx2
      constructor <;> simp [reader.Reader.next, reader.next_event, h, hp]
  | error err =>
    refine ⟨?_, ?_, ?_⟩
    · simp [reader.Reader.next, reader.next_event, h, hp, Except.isOk, Except.toBool]
    · intro e2 he2
      injection he2 with he3
      subst he3
      constructor <;> simp [reader.Reader.next, reader.next_event, h, hp]
    · intro x hx; exact absurd hx (by simp)

/-- C3 (witness): on a fully successful processing run the event handle
is closed. -/
theorem event_close_iff_process_ok_witness :
    (reader.Reader.next convUnit reader0 wNextOk).2 = true :=
  ((event_close_iff_process_ok convUnit reader0 wNextOk 7 rfl).1).mpr (by decide)

/-- C6 (counterexample): the signal is created successfully, the
subscription open fails with OS code 5, `init` returns the Subscription
error — and its native-operation trace contains no close of the wait
signal, refuting the claim that the signal is released before the error
is returned. -/
theorem init_signal_leak_counterexample :
    wInitSubFail.signal.isNull = false
    ∧ wInitSubFail.signal.isInvalid = false
    ∧ (reader.init cfgInit wInitSubFail).1 =
        Except.error
          (Error.subscription "unable to create events subscription"
            (ioErrorText (some 5)))
    ∧ (reader.init cfgInit wInitSubFail).2 =
        [reader.NativeOp.createEventW, reader.NativeOp.evtSubscribe]
    ∧ reader.NativeOp.closeHandle ∉ (reader.init cfgInit wInitSubFail).2 := by
  refine ⟨rfl, rfl, by decide, by decide, by decide⟩

/-- C6 (amended): when opening the subscription fails, `init` returns a
Subscription error, and the previously created wait signal is not
released before the error is returned — the signal handle leaks on this
failure path. -/
theorem init_subscribe_fail_no_release (cfg : reader.Config) (w : reader.InitWorld)
    (h1 : w.signal.isNull = false) (h2 : w.signal.isInvalid = false)
    (h3 : w.subscribeResult = 0) :
    (reader.init cfg w).1 =
      Except.error
        (Error.subscription "unable to create events subscription"
          (ioErrorText w.subscribeErr))
    ∧ reader.NativeOp.closeHandle ∉ (reader.init cfg w).2 := by
  cases hb : cfg.bookmark with
  | none => simp [reader.init, hb, h1, h2, h3]
  | some xml => simp [reader.init, hb, h1, h2, h3]

/-- C6 (witness): instantiation of the amended statement on the
concrete failing-subscribe world. -/
theorem init_subscribe_fail_no_release_witness :
    reader.NativeOp.closeHandle ∉ (reader.init cfgInit wInitSubFail).2 :=
  (init_subscribe_fail_no_release cfgInit wInitSubFail rfl rfl rfl).2

/-- C8: both `render_event` and `format_message` follow the
probe-then-fill protocol: any probe error code other than 122 is a
fatal Event error; otherwise a buffer of exactly the probe-reported
size is filled, a fill failure is a fatal Event error, and success
yields the buffer decoded as lossy UTF-16 with null padding trimmed. -/
theorem probe_then_fill_protocol (w : reader.RenderWorld) (flag : Nat)
    (publisher : Option String) :
    (∀ e, w.probeCode = some e → e ≠ 122 →
      reader.render_event w flag =
        Except.error (Error.event "unable to render event" (ioErrorText (some e)))
      ∧ reader.format_message publisher w flag =
          Except.error (Error.event "unable to render event" (ioErrorText (some e))))
    ∧ ((w.probeCode = none ∨ w.probeCode = some 122) →
        (w.fillOk = false →
          reader.render_event w flag =
            Except.error (Error.event "unable to render event" (ioErrorText w.fillErr))
          ∧ reader.format_message publisher w flag =
              Except.error (Error.event "unable to render event" (ioErrorText w.fillErr)))
        ∧ (w.fillOk = true →
          reader.render_event w flag =
            Except.ok (reader.fromUtf16LossyTrimmed
              (reader.filledBuffer w.probeUsed w.fillData))
          ∧ reader.format_message publisher w flag =
              Except.ok (reader.fromUtf16LossyTrimmed
                (reader.filledBuffer w.probeUsed w.fillData)))) := by
  constructor
  · intro e he hne
    constructor <;> simp [reader.render_event, reader.format_message, he, hne]
  · intro hp
    constructor
    · intro hf
      rcases hp with hp | hp <;>
        constructor <;>
          simp [reader.render_event, reader.format_message, reader.render_fill, hp, hf]
    · intro hf
      rcases hp with hp | hp <;>
        constructor <;>
          simp [reader.render_event, reader.format_message, reader.render_fill, hp, hf]

/-- C8 (witness): a probe reporting insufficient buffer with size 2 and
a successful fill writing the code units 72, 105 yields the text Hi
from both operations. -/
theorem probe_then_fill_protocol_witness :
    reader.render_event wRenderOk 1 = Except.ok "Hi"
    ∧ reader.format_message none wRenderOk 9 = Except.ok "Hi" := by
  have h1 := ((probe_then_fill_protocol wRenderOk 1 none).2 (Or.inr rfl)).2 rfl
  have h9 := ((probe_then_fill_protocol wRenderOk 9 none).2 (Or.inr rfl)).2 rfl
  exact ⟨by rw [h1.1]; decide, by rw [h9.2]; decide⟩

/-- C9: teardown releases, in the fixed order wait signal then
subscription handle then bookmark handle, exactly the resources that
are live — a missing or null or invalid signal and zero-valued handles
are skipped — and a reader with no live resource releases nothing;
teardown is a total function into an operation list, so it cannot
itself raise. -/
theorem teardown_order_guarded (r : reader.Reader) :
    reader.Reader.drop r =
      (match r.signal with
       | some s =>
         if ¬ s.isNull ∧ ¬ s.isInvalid then [reader.NativeOp.closeHandle] else []
       | none => []) ++
      ((if r.subscription_handle ≠ 0 then
          [reader.NativeOp.evtClose r.subscription_handle] else []) ++
       (if r.bookmark_handle ≠ 0 then
          [reader.NativeOp.evtClose r.bookmark_handle] else []))
    ∧ reader.NativeOp.evtClose 0 ∉ reader.Reader.drop r
    ∧ (r.signal = none → reader.NativeOp.closeHandle ∉ reader.Reader.drop r)
    ∧ (r.subscription_handle = 0 ∧ r.bookmark_handle = 0 ∧ r.signal = none →
        reader.Reader.drop r = []) := by
  have heq : reader.Reader.drop r =
      (match r.signal with
       | some s =>
         if ¬ s.isNull ∧ ¬ s.isInvalid then [reader.NativeOp.closeHandle] else []
       | none => []) ++
      ((if r.subscription_handle ≠ 0 then
          [reader.NativeOp.evtClose r.subscription_handle] else []) ++
       (if r.bookmark_handle ≠ 0 then
          [reader.NativeOp.evtClose r.bookmark_handle] else [])) := by
    unfold reader.Reader.drop
    cases hs : r.signal <;> split_ifs <;> simp_all
  refine ⟨heq, ?_, ?_, ?_⟩
  · rw [heq]
    cases hs : r.signal <;> split_ifs <;> simp_all <;> omega
  · intro hn
    rw [heq, hn]
    split_ifs <;> simp_all
  · rintro ⟨h1, h2, h3⟩
    rw [heq, h1, h2, h3]
    simp

/-- C9 (witness): a reader whose resources were never created performs
no release at all. -/
theorem teardown_order_guarded_witness :
    reader.Reader.drop
      { subscription_handle := 0, bookmark_handle := 0, signal := none,
        output := reader.Output.Xml } = [] :=
  (teardown_order_guarded _).2.2.2 ⟨rfl, rfl, rfl⟩
